import Mathlib

/-!
Shallow embedding of the `ha_services.mqtt4homeassistant` component layer:
the `Switch`, `BinarySensor`, `Text` and `Light` components and the
`TemperaturesSensors` collector, translated from
`src/ha_services/mqtt4homeassistant/components/{switch,binary_sensor,text,light}.py`
and `src/ha_services/mqtt4homeassistant/system_info/temperatures.py`.

Python exceptions are modelled by `Except PyError`; the mutable component
objects are modelled by structures threaded through the operations; the
monotonic clock (`time.monotonic()`) is an explicit argument `now`; the
embedded code uses only ordering of clock values and addition of a
duration, so clock instants are modelled by integers (temperature readings
stay rational).
The `BaseComponent` class, the `data_classes` module (`NO_STATE`,
`ComponentState`), the `Sensor` class and `slugify` are not part of the
given sources; where an operation of theirs is needed it is modelled from
the spec and marked `Modelled from the spec:` in its doc comment.
-/

/-- Python exception classes raised by the embedded code paths:
`InvalidStateValue` (ha_services.exceptions), `AssertionError` (bare
`assert`), `ValueError`, `NotImplementedError`, `KeyError` (dict indexing),
`TypeError` (iterating a non-iterable sentinel). -/
inductive PyError
  | invalidStateValue
  | assertionError
  | valueError
  | notImplementedError
  | keyError
  | typeError
deriving DecidableEq

/-- Modelled from the spec: a `StatePayload` value of the missing
`data_classes` module, or the distinguished unset sentinel `NO_STATE`
("a distinguished value distinct from any legal state value"). A scalar
state is a string or a number. -/
inductive StateValue
  | noState
  | str (s : String)
  | int (n : Int)
deriving DecidableEq

/-- Modelled from the spec: the `ComponentState` value object of the missing
`data_classes` module — a transient `{topic, payload}` pair. -/
structure ComponentState where
  topic : String
  payload : StateValue
deriving DecidableEq

/-- One call made to the external MQTT transport (`paho.mqtt.client.Client`):
`client.publish(topic, payload, qos, retain)`, `client.subscribe(topic)`,
`client.message_callback_add(topic, handler)`, and a discovery-config
publish (whose structured payload mapping is built by `get_config`). -/
inductive TransportCall
  | publish (topic : String) (payload : StateValue) (qos : Nat) (retain : Bool)
  | subscribe (topic : String)
  | callbackAdd (topic : String)
  | configPublish (topic : String)
deriving DecidableEq

/-- Modelled from the spec: `BaseComponent.validate_state` is not in the
given sources; every subclass in src performs its own sentinel and domain
checks after calling `super().validate_state(state)`, so the base check is
modelled as accepting every candidate. -/
def baseValidateState (_state : StateValue) : Except PyError Unit := .ok ()

/-- Modelled from the spec: the topic layout
`<prefix>/<kind>/<device-id>/<uid>` computed by the missing
`BaseComponent.__init__` (spec section 6; the example topics in the src
comments use the `homeassistant` discovery root). -/
def mkTopicPrefix (component device_id uid : String) : String :=
  "homeassistant/" ++ component ++ "/" ++ device_id ++ "/" ++ uid

/-! ## Switch (`components/switch.py`) -/

/-- A `Switch` component: `state2bool = {'ON': True, 'OFF': False}`,
`command_topic = f'{topic_prefix}/command'`. The mutable `state`
attribute comes from the missing `BaseComponent.__init__`
(`self.state = initial_state`). -/
structure Switch where
  name : String
  uid : String
  topic_prefix : String
  state : StateValue
deriving DecidableEq

def Switch.ON : String := "ON"

def Switch.OFF : String := "OFF"

/-- The keys of the `state2bool` dict, in insertion order. -/
def switchStateKeys : List String := [Switch.ON, Switch.OFF]

/-- The `state2bool` dict as an association list. -/
def state2boolList : List (String × Bool) := [(Switch.ON, true), (Switch.OFF, false)]

/-- Modelled from the spec: the missing `BaseComponent.__init__`, which
stores `initial_state` into `self.state` unvalidated ("`set_state()` must
be called to set the value") and derives the topic layout. -/
def Switch.init (device_id name uid : String) (initial_state : StateValue) : Switch :=
  { name := name
    uid := uid
    topic_prefix := mkTopicPrefix "switch" device_id uid
    state := initial_state }

/-- `Switch.validate_state`: `super().validate_state(state)`, then reject
`NO_STATE`, then reject `state not in self.state2bool` (Python `in` on a
dict tests keys, so any non-string is also rejected). -/
def Switch.validate_state (_sw : Switch) (state : StateValue) : Except PyError Unit :=
  match baseValidateState state with
  | .error e => .error e
  | .ok _ =>
    if state = .noState then
      .error .invalidStateValue
    else
      match state with
      | .str s =>
        if switchStateKeys.contains s then .ok () else .error .invalidStateValue
      | _ => .error .invalidStateValue

/-- Modelled from the spec: the missing `BaseComponent.set_state` —
"calls validate, then assigns; ... validation happens before mutation, so
on failure the prior state is retained unchanged". Dispatches to the
subclass `validate_state`. -/
def Switch.set_state (sw : Switch) (state : StateValue) : Except PyError Switch :=
  match sw.validate_state state with
  | .error e => .error e
  | .ok _ => .ok { sw with state := state }

/-- `Switch.get_state`: asserts `self.state is not NO_STATE`, then returns
`ComponentState(topic=f'{self.topic_prefix}/state', payload=self.state)`. -/
def Switch.get_state (sw : Switch) : Except PyError ComponentState :=
  if sw.state = .noState then
    .error .assertionError
  else
    .ok { topic := sw.topic_prefix ++ "/state", payload := sw.state }

/-- `Switch._command_callback`: decodes the payload, asserts
`new_state in self.state2bool` (an `AssertionError` escapes the handler on
any other payload), then invokes the user callback with
`(old_state, new_state)`. The returned pair is the argument of that
callback invocation. -/
def Switch.command_callback (sw : Switch) (payload : String) :
    Except PyError (StateValue × String) :=
  if switchStateKeys.contains payload then
    .ok (sw.state, payload)
  else
    .error .assertionError

/-! ## BinarySensor (`components/binary_sensor.py`) -/

/-- A `BinarySensor` component (read-only: no command topic). -/
structure BinarySensor where
  name : String
  uid : String
  topic_prefix : String
  state : StateValue
deriving DecidableEq

/-- Modelled from the spec: the missing `BaseComponent.__init__` for a
binary sensor, storing `initial_state` unvalidated. -/
def BinarySensor.init (device_id name uid : String) (initial_state : StateValue) :
    BinarySensor :=
  { name := name
    uid := uid
    topic_prefix := mkTopicPrefix "binary_sensor" device_id uid
    state := initial_state }

/-- `BinarySensor.is_on`: returns `None` (with a warning log) when the
state is `NO_STATE` or not a string; otherwise `self.state2bool[self.state]`
(a `KeyError` on a string outside the dict). -/
def BinarySensor.is_on (b : BinarySensor) : Except PyError (Option Bool) :=
  match b.state with
  | .str s =>
    match state2boolList.lookup s with
    | some v => .ok (some v)
    | none => .error .keyError
  | _ => .ok none

/-- `BinarySensor.validate_state`: `super().validate_state(state)`, then
reject `not isinstance(state, str) or state not in self.state2bool`. -/
def BinarySensor.validate_state (_b : BinarySensor) (state : StateValue) :
    Except PyError Unit :=
  match baseValidateState state with
  | .error e => .error e
  | .ok _ =>
    match state with
    | .str s =>
      if switchStateKeys.contains s then .ok () else .error .invalidStateValue
    | _ => .error .invalidStateValue

/-- Modelled from the spec: the missing `BaseComponent.set_state` (validate,
then assign), dispatching to `BinarySensor.validate_state`. -/
def BinarySensor.set_state (b : BinarySensor) (state : StateValue) :
    Except PyError BinarySensor :=
  match b.validate_state state with
  | .error e => .error e
  | .ok _ => .ok { b with state := state }

/-- `BinarySensor.get_state`: asserts
`self.state is not NO_STATE and isinstance(self.state, str)`, then returns
`{topic: f'{self.topic_prefix}/state', payload: self.state}`. -/
def BinarySensor.get_state (b : BinarySensor) : Except PyError ComponentState :=
  match b.state with
  | .str s => .ok { topic := b.topic_prefix ++ "/state", payload := .str s }
  | _ => .error .assertionError

/-! ## Text (`components/text.py`) -/

/-- A `Text` component with length bounds `min_length`/`max_length`
(Python ints). -/
structure Text where
  name : String
  uid : String
  topic_prefix : String
  state : StateValue
  min_length : Int
  max_length : Int
deriving DecidableEq

/-- `Text.validate_state`: `super().validate_state(state)`; reject a
non-string with `InvalidStateValue`; reject `len(state) < self.min_length`
and `len(state) > self.max_length` with `InvalidStateValue`. -/
def Text.validate_state (t : Text) (state : StateValue) : Except PyError Unit :=
  match baseValidateState state with
  | .error e => .error e
  | .ok _ =>
    match state with
    | .str s =>
      if (s.length : Int) < t.min_length then
        .error .invalidStateValue
      else if (s.length : Int) > t.max_length then
        .error .invalidStateValue
      else
        .ok ()
    | _ => .error .invalidStateValue

/-- Modelled from the spec: the missing `BaseComponent.set_state` (validate,
then assign), dispatching to `Text.validate_state`. -/
def Text.set_state (t : Text) (state : StateValue) : Except PyError Text :=
  match t.validate_state state with
  | .error e => .error e
  | .ok _ => .ok { t with state := state }

/-- `Text.__init__`: base init stores `initial_state`; then
`if initial_state is NO_STATE: self.set_state("NO TEXT PROVIDED")`. -/
def Text.init (device_id name uid : String) (initial_state : StateValue)
    (min_length max_length : Int) : Except PyError Text :=
  let t : Text :=
    { name := name
      uid := uid
      topic_prefix := mkTopicPrefix "text" device_id uid
      state := initial_state
      min_length := min_length
      max_length := max_length }
  if initial_state = .noState then
    t.set_state (.str "NO TEXT PROVIDED")
  else
    .ok t

/-- `Text.get_state`: raises `ValueError` when the state is still
`NO_STATE`; otherwise returns `{topic, payload=str(self.state)}`. The
string cast of an already-string state is the identity. -/
def Text.get_state (t : Text) : Except PyError ComponentState :=
  match t.state with
  | .noState => .error .valueError
  | .str s => .ok { topic := t.topic_prefix ++ "/state", payload := .str s }
  | .int n => .ok { topic := t.topic_prefix ++ "/state", payload := .str (toString n) }

/-- `Text._command_callback`: decodes the payload, validates it inside
`try/except InvalidStateValue` — on validation failure logs an error and
returns without invoking the user callback (`.ok none`); on success invokes
the callback with `(old_state, new_state)` (`.ok (some pair)`). -/
def Text.command_callback (t : Text) (payload : String) :
    Except PyError (Option (StateValue × String)) :=
  match t.validate_state (.str payload) with
  | .error .invalidStateValue => .ok none
  | .error e => .error e
  | .ok _ => .ok (some (t.state, payload))

/-! ## Light (`components/light.py`) -/

/-- A `Light` component (the RGBW variant, `light.py`). Sub-state
attributes `state_switch`, `state_brightness`, `state_rgbw` hold either the
`NO_STATE` sentinel (`none`) or a typed value; `_next_publish` is the
monotonic rate-limit deadline and `throttle_sec` the throttle interval,
both inherited from the missing `BaseComponent` (modelled from the spec:
the deadline starts eligible, see `Light.init`). `qos` and `retain` are the
base publish settings. -/
structure Light where
  name : String
  uid : String
  topic_prefix : String
  min_brightness : Int
  max_brightness : Int
  state_switch : Option String
  state_brightness : Option Int
  state_rgbw : Option (List Int)
  qos : Nat
  retain : Bool
  throttle_sec : Int
  next_publish : Int
deriving DecidableEq

def Light.MAX_BRIGHTNESS : Int := 255

def Light.command_topic (l : Light) : String := l.topic_prefix ++ "/command"

def Light.state_topic (l : Light) : String := l.topic_prefix ++ "/state"

def Light.switch_command_topic (l : Light) : String := l.command_topic ++ "/switch"

def Light.switch_state_topic (l : Light) : String := l.state_topic ++ "/switch"

def Light.brightness_command_topic (l : Light) : String := l.command_topic ++ "/brightness"

def Light.brightness_state_topic (l : Light) : String := l.state_topic ++ "/brightness"

def Light.rgbw_command_topic (l : Light) : String := l.command_topic ++ "/rgbw"

def Light.rgbw_state_topic (l : Light) : String := l.state_topic ++ "/rgbw"

/-- `Light.set_state` is explicitly disabled:
`raise NotImplementedError('Use set_state_switch, set_state_rgbw, or set_state_brightness instead.')`. -/
def Light.set_state (_l : Light) (_state : StateValue) : Except PyError Light :=
  .error .notImplementedError

/-- `Light.publish_state` is explicitly disabled (`raise NotImplementedError`);
in particular no transport call is produced and no field is assigned. -/
def Light.publish_state (_l : Light) (_now : Int) :
    Except PyError (Light × Option TransportCall) :=
  .error .notImplementedError

/-- `Light.get_state` is explicitly disabled (`raise NotImplementedError`). -/
def Light.get_state (_l : Light) : Except PyError ComponentState :=
  .error .notImplementedError

/-- `Light.validate_state` (the blanket override at the bottom of
`light.py`): raises `InvalidStateValue` iff the candidate is `NO_STATE`. -/
def Light.validate_state (_l : Light) (state : StateValue) : Except PyError Unit :=
  if state = .noState then .error .invalidStateValue else .ok ()

/-- `Light.validate_state_switch`: `super().validate_state(state)` (the
base check), then reject `state not in self.state2bool` with
`InvalidStateValue`. The argument is typed `str`, so the sentinel branch of
the base check cannot fire. -/
def Light.validate_state_switch (_l : Light) (state : String) : Except PyError Unit :=
  match baseValidateState (.str state) with
  | .error e => .error e
  | .ok _ =>
    if switchStateKeys.contains state then .ok () else .error .invalidStateValue

/-- `Light.validate_state_rgbw`:
`assert len(state) == 4 and all(isinstance(i, int) and i >= 0 and i <= 255 for i in state)`
(the base check is skipped on purpose; the elements are ints by the
`list[int]` annotation). -/
def Light.validate_state_rgbw (_l : Light) (state : List Int) : Except PyError Unit :=
  if state.length = 4 ∧ ∀ i ∈ state, 0 ≤ i ∧ i ≤ 255 then .ok ()
  else .error .assertionError

/-- `Light.validate_state_brightness`: `super().validate_state(state)`
(the base check), then
`assert state >= self.min_brightness and state <= self.max_brightness`. -/
def Light.validate_state_brightness (l : Light) (state : Int) : Except PyError Unit :=
  match baseValidateState (.int state) with
  | .error e => .error e
  | .ok _ =>
    if l.min_brightness ≤ state ∧ state ≤ l.max_brightness then .ok ()
    else .error .assertionError

/-- `Light.set_state_switch`: validate, then `self.state_switch = state`. -/
def Light.set_state_switch (l : Light) (state : String) : Except PyError Light :=
  match l.validate_state_switch state with
  | .error e => .error e
  | .ok _ => .ok { l with state_switch := some state }

/-- `Light.set_state_rgbw`: validate, then `self.state_rgbw = state`. -/
def Light.set_state_rgbw (l : Light) (state : List Int) : Except PyError Light :=
  match l.validate_state_rgbw state with
  | .error e => .error e
  | .ok _ => .ok { l with state_rgbw := some state }

/-- `Light.set_state_brightness`: validate, then `self.state_brightness = state`. -/
def Light.set_state_brightness (l : Light) (state : Int) : Except PyError Light :=
  match l.validate_state_brightness state with
  | .error e => .error e
  | .ok _ => .ok { l with state_brightness := some state }

/-- `Light.get_state_switch`: `{topic: switch_state_topic, payload: self.state_switch}`
— the attribute is passed through as the payload, the sentinel included. -/
def Light.get_state_switch (l : Light) : ComponentState :=
  { topic := l.switch_state_topic
    payload := match l.state_switch with
      | some s => .str s
      | none => .noState }

/-- `Light.get_state_rgbw`: `{topic, payload: ','.join(map(str, self.state_rgbw))}`;
iterating the `NO_STATE` sentinel would raise `TypeError` (every caller in
src guards the sentinel first). -/
def Light.get_state_rgbw (l : Light) : Except PyError ComponentState :=
  match l.state_rgbw with
  | some xs =>
    .ok { topic := l.rgbw_state_topic
          payload := .str (String.intercalate "," (xs.map toString)) }
  | none => .error .typeError

/-- `Light.get_state_brightness`: `{topic, payload: str(self.state_brightness)}`.
The sentinel's string rendering lives in the missing `data_classes` module;
every caller in src guards the sentinel first, so that branch is modelled
by the sentinel marker itself. -/
def Light.get_state_brightness (l : Light) : ComponentState :=
  { topic := l.brightness_state_topic
    payload := match l.state_brightness with
      | some n => .str (toString n)
      | none => .noState }

/-- `Light.publish_state_switch`: return `None` when `state_switch` is
`NO_STATE` (warning log, no I/O); return `None` when
`self._next_publish > time.monotonic()` (throttled, no I/O); otherwise
publish `get_state_switch()` and set `self._next_publish = now + throttle_sec`. -/
def Light.publish_state_switch (l : Light) (now : Int) : Light × Option TransportCall :=
  if l.state_switch = none then
    (l, none)
  else if l.next_publish > now then
    (l, none)
  else
    let st := l.get_state_switch
    ({ l with next_publish := now + l.throttle_sec },
      some (.publish st.topic st.payload l.qos l.retain))

/-- `Light.publish_state_rgbw`: same shape as `publish_state_switch`, on
the shared `_next_publish` deadline, publishing `get_state_rgbw()`. -/
def Light.publish_state_rgbw (l : Light) (now : Int) :
    Except PyError (Light × Option TransportCall) :=
  if l.state_rgbw = none then
    .ok (l, none)
  else if l.next_publish > now then
    .ok (l, none)
  else
    match l.get_state_rgbw with
    | .error e => .error e
    | .ok st =>
      .ok ({ l with next_publish := now + l.throttle_sec },
        some (.publish st.topic st.payload l.qos l.retain))

/-- `Light.publish_state_brightness`: same shape as `publish_state_switch`,
on the shared `_next_publish` deadline, publishing `get_state_brightness()`. -/
def Light.publish_state_brightness (l : Light) (now : Int) : Light × Option TransportCall :=
  if l.state_brightness = none then
    (l, none)
  else if l.next_publish > now then
    (l, none)
  else
    let st := l.get_state_brightness
    ({ l with next_publish := now + l.throttle_sec },
      some (.publish st.topic st.payload l.qos l.retain))

/-- `Light.__init__` with the source's defaults made explicit:
`default_brightness = 255`, `default_rgbw = [255,255,255,255]`,
`default_switch = 'ON'`, `min_brightness = 0`, `max_brightness = 255`.
After the (modelled) base init it sets the brightness limits and then calls
`set_state_switch(default_switch)`, `set_state_brightness(default_brightness)`,
`set_state_rgbw(default_rgbw)` in that order, so a validation failure of a
default escapes the constructor. Modelled from the spec: the base init
leaves the rate-limit deadline eligible (`next_publish = 0`) with the
caller's `qos`/`retain`/`throttle_sec` settings. -/
def Light.init (device_id name uid : String) (default_brightness : Int)
    (default_rgbw : List Int) (default_switch : String)
    (min_brightness max_brightness : Int) (qos : Nat) (retain : Bool)
    (throttle_sec : Int) : Except PyError Light :=
  let l0 : Light :=
    { name := name
      uid := uid
      topic_prefix := mkTopicPrefix "light" device_id uid
      min_brightness := min_brightness
      max_brightness := max_brightness
      state_switch := none
      state_brightness := none
      state_rgbw := none
      qos := qos
      retain := retain
      throttle_sec := throttle_sec
      next_publish := 0 }
  match l0.set_state_switch default_switch with
  | .error e => .error e
  | .ok l1 =>
    match l1.set_state_brightness default_brightness with
    | .error e => .error e
    | .ok l2 => l2.set_state_rgbw default_rgbw

/-- One call of the `Light` API, for stating invariants over arbitrary
operation sequences. -/
inductive LightOp
  | setSwitch (s : String)
  | setBrightness (n : Int)
  | setRgbw (xs : List Int)
  | pubSwitch (now : Int)
  | pubRgbw (now : Int)
  | pubBrightness (now : Int)

/-- Apply one `Light` operation; a raised exception leaves the Python
object as it was (every `set_state_*` validates before assigning), so the
error branch keeps `l`. -/
def Light.applyOp (l : Light) (op : LightOp) : Light :=
  match op with
  | .setSwitch s => ((l.set_state_switch s).toOption).getD l
  | .setBrightness n => ((l.set_state_brightness n).toOption).getD l
  | .setRgbw xs => ((l.set_state_rgbw xs).toOption).getD l
  | .pubSwitch now => (l.publish_state_switch now).1
  | .pubRgbw now => (((l.publish_state_rgbw now).toOption).getD (l, none)).1
  | .pubBrightness now => (l.publish_state_brightness now).1

/-- Apply a sequence of `Light` operations in order. -/
def Light.applyOps (l : Light) (ops : List LightOp) : Light :=
  ops.foldl Light.applyOp l

/-- The brightness sub-state invariant: whenever set, the stored brightness
lies within `[min_brightness, max_brightness]`. -/
def Light.brightnessOK (l : Light) : Prop :=
  ∀ b, l.state_brightness = some b → l.min_brightness ≤ b ∧ b ≤ l.max_brightness

/-! ## Temperature sensors (`system_info/temperatures.py`) -/

/-- One entry of a `psutil.sensors_temperatures()` probe list; only the
`current` reading is used (`temp.current`). -/
structure TempReading where
  current : ℚ
deriving DecidableEq

/-- A platform report: the dict returned by `_get_temperatures()`, as an
association list from probe name to its readings. On a platform reporting
no temperature sensors this is the empty list (`_get_temperatures` returns
`{}` off Linux or when `psutil.sensors_temperatures` is unavailable). -/
abbrev TempReport : Type := List (String × List TempReading)

/-- `statistics.median` of the Python standard library: the middle element
of the sorted data for odd length, the mean of the two middle elements for
even length. On empty data Python raises `StatisticsError`; that branch is
unreachable from the src callers (the dict iteration supplies per-probe
reading lists) and is modelled as `0`. -/
def pyMedian (xs : List ℚ) : ℚ :=
  let ys := xs.mergeSort (· ≤ ·)
  let n := ys.length
  if n = 0 then 0
  else if n % 2 = 1 then ys.getD (n / 2) 0
  else (ys.getD (n / 2 - 1) 0 + ys.getD (n / 2) 0) / 2

/-- `median_temperatures`: for every probe of the report, the median of its
`current` readings, keyed by probe name. -/
def median_temperatures (temps : TempReport) : List (String × ℚ) :=
  temps.map (fun p => (p.1, pyMedian (p.2.map TempReading.current)))

/-- Modelled from the spec: `slugify` of the missing
`ha_services.mqtt4homeassistant.utilities.string_utils` — a deterministic
uid-safe rendering of a name (unreached by the settled claims). -/
def slugify (s : String) : String :=
  String.map (fun c => if c.isAlphanum then c.toLower else '_') s

/-- Modelled from the spec: the missing `Sensor` component (a plain sensor,
read-only). The numeric state is `none` while still the `NO_STATE`
sentinel. -/
structure Sensor where
  name : String
  uid : String
  topic_prefix : String
  state : Option ℚ
  qos : Nat
  retain : Bool
  throttle_sec : Int
  next_publish : Int
deriving DecidableEq

/-- Modelled from the spec: constructing a `Sensor` (base init, state unset,
rate-limit deadline eligible). -/
def Sensor.init (device_id name uid : String) (qos : Nat) (retain : Bool)
    (throttle_sec : Int) : Sensor :=
  { name := name
    uid := uid
    topic_prefix := mkTopicPrefix "sensor" device_id uid
    state := none
    qos := qos
    retain := retain
    throttle_sec := throttle_sec
    next_publish := 0 }

/-- Modelled from the spec: `Sensor.set_state` — validate (a number is in
the sensor's scalar domain), then assign. -/
def Sensor.set_state (s : Sensor) (v : ℚ) : Sensor :=
  { s with state := some v }

/-- Modelled from the spec: `Sensor.publish_state` — no I/O while the state
is unset or the deadline has not elapsed; otherwise emit the state and
advance the deadline to `now + throttle_sec`. -/
def Sensor.publish_state (s : Sensor) (now : Int) : Sensor × List TransportCall :=
  match s.state with
  | none => (s, [])
  | some v =>
    if s.next_publish > now then
      (s, [])
    else
      ({ s with next_publish := now + s.throttle_sec },
        [.publish (s.topic_prefix ++ "/state") (.str (toString v)) s.qos s.retain])

/-- Modelled from the spec: `Sensor.publish` — emit the discovery config,
then the state (a read-only sensor registers no command subscription). -/
def Sensor.publish (s : Sensor) (now : Int) : Sensor × List TransportCall :=
  let cfg : TransportCall := .configPublish (s.topic_prefix ++ "/config")
  let (s2, stateCalls) := s.publish_state now
  (s2, cfg :: stateCalls)

/-- The `TemperaturesSensors` collector: one `Sensor` per probe name found
at construction, in a dict keyed by the probe name. -/
structure TemperaturesSensors where
  device_id : String
  sensors : List (String × Sensor)

/-- `TemperaturesSensors.__init__`: polls `_get_temperatures()` and creates,
for every probe name of the report, a temperature `Sensor` named
`f'Temperature {name}'` with uid `slugify(f'temperature_{name}')`. -/
def TemperaturesSensors.init (device_id : String) (temps : TempReport)
    (qos : Nat) (retain : Bool) (throttle_sec : Int) : TemperaturesSensors :=
  { device_id := device_id
    sensors := temps.map (fun p =>
      (p.1,
        Sensor.init device_id ("Temperature " ++ p.1)
          (slugify ("temperature_" ++ p.1)) qos retain throttle_sec)) }

/-- Replace the sensor stored under `name` (Python dict item assignment is
in-place mutation of the looked-up object). -/
def updateSensor (sensors : List (String × Sensor)) (name : String) (sn : Sensor) :
    List (String × Sensor) :=
  sensors.map (fun p => if p.1 = name then (p.1, sn) else p)

/-- The loop body of `TemperaturesSensors.publish`: for each
`(name, median_temperature)` pair, `self.sensors[name]` (a `KeyError` when
the probe appeared after construction), `sensor.set_state(...)`,
`sensor.publish(client)`. -/
def publishTemperaturesLoop (sensors : List (String × Sensor))
    (meds : List (String × ℚ)) (now : Int) :
    Except PyError (List (String × Sensor) × List TransportCall) :=
  match meds with
  | [] => .ok (sensors, [])
  | (name, m) :: rest =>
    match sensors.lookup name with
    | none => .error .keyError
    | some sn =>
      let sn1 := sn.set_state m
      let (sn2, calls) := sn1.publish now
      match publishTemperaturesLoop (updateSensor sensors name sn2) rest now with
      | .error e => .error e
      | .ok (sensors2, calls2) => .ok (sensors2, calls ++ calls2)

/-- `TemperaturesSensors.publish`: re-poll (`get_median_temperatures`,
taking the current platform report), then set and publish every sensor. -/
def TemperaturesSensors.publish (ts : TemperaturesSensors) (temps_now : TempReport)
    (now : Int) : Except PyError (TemperaturesSensors × List TransportCall) :=
  match publishTemperaturesLoop ts.sensors (median_temperatures temps_now) now with
  | .error e => .error e
  | .ok (sensors2, calls) => .ok ({ ts with sensors := sensors2 }, calls)

/-! ## Concrete fixtures

Reachable component instances used by the concrete theorems below; each is
tied to its constructor by an equation. -/

/-- The `Light` produced by `Light.__init__` with the source's default
arguments on device `dev1`, uid `light1`, with `throttle_sec = 10`. -/
def lightA : Light :=
  { name := "My Light"
    uid := "light1"
    topic_prefix := mkTopicPrefix "light" "dev1" "light1"
    min_brightness := 0
    max_brightness := 255
    state_switch := some "ON"
    state_brightness := some 255
    state_rgbw := some [255, 255, 255, 255]
    qos := 0
    retain := false
    throttle_sec := 10
    next_publish := 0 }

theorem lightA_constructed :
    Light.init "dev1" "My Light" "light1" 255 [255, 255, 255, 255] "ON" 0 255 0 false 10 =
      .ok lightA := rfl

/-- A freshly constructed `Switch` (no `set_state` call yet). -/
def switchA : Switch := Switch.init "dev1" "My Relay" "relay1" .noState

/-- A freshly constructed `BinarySensor` (no `set_state` call yet). -/
def bsensorA : BinarySensor := BinarySensor.init "dev1" "My Door" "door1" .noState

/-- A `Text` component with `max_length = 5`, constructed with an explicit
valid initial state. -/
def textA : Text :=
  { name := "My Note"
    uid := "note1"
    topic_prefix := mkTopicPrefix "text" "dev1" "note1"
    state := .str "hi"
    min_length := 0
    max_length := 5 }

theorem textA_constructed :
    Text.init "dev1" "My Note" "note1" (.str "hi") 0 5 = .ok textA := rfl

/-! ## Helper lemmas -/

/-- A successful `set_state_switch` assigns exactly the switch sub-state. -/
theorem set_state_switch_ok (l : Light) (s : String) (l' : Light)
    (h : l.set_state_switch s = .ok l') : l' = { l with state_switch := some s } := by
  unfold Light.set_state_switch at h
  split at h
  · simp at h
  · injection h with h
    exact h.symm

/-- A successful `set_state_brightness` assigns exactly the brightness
sub-state, and the assigned value passed the bounds assertion. -/
theorem set_state_brightness_ok (l : Light) (n : Int) (l' : Light)
    (h : l.set_state_brightness n = .ok l') :
    l' = { l with state_brightness := some n } ∧
      l.min_brightness ≤ n ∧ n ≤ l.max_brightness := by
  unfold Light.set_state_brightness Light.validate_state_brightness baseValidateState at h
  by_cases hc : l.min_brightness ≤ n ∧ n ≤ l.max_brightness
  · rw [if_pos hc] at h
    injection h with h
    exact ⟨h.symm, hc⟩
  · rw [if_neg hc] at h
    simp at h

/-- A successful `set_state_rgbw` assigns exactly the color sub-state. -/
theorem set_state_rgbw_ok (l : Light) (xs : List Int) (l' : Light)
    (h : l.set_state_rgbw xs = .ok l') : l' = { l with state_rgbw := some xs } := by
  unfold Light.set_state_rgbw at h
  split at h
  · simp at h
  · injection h with h
    exact h.symm

/-- `publish_state_switch` leaves every field but the shared rate-limit
deadline unchanged. -/
theorem publish_state_switch_fst (l : Light) (now : Int) :
    (l.publish_state_switch now).1 = l ∨
    (l.publish_state_switch now).1 = { l with next_publish := now + l.throttle_sec } := by
  unfold Light.publish_state_switch
  split
  · exact .inl rfl
  · split
    · exact .inl rfl
    · exact .inr rfl

/-- `publish_state_brightness` leaves every field but the shared rate-limit
deadline unchanged. -/
theorem publish_state_brightness_fst (l : Light) (now : Int) :
    (l.publish_state_brightness now).1 = l ∨
    (l.publish_state_brightness now).1 = { l with next_publish := now + l.throttle_sec } := by
  unfold Light.publish_state_brightness
  split
  · exact .inl rfl
  · split
    · exact .inl rfl
    · exact .inr rfl

/-- The post-state of `applyOp (.pubRgbw now)` differs from the pre-state
at most in the shared rate-limit deadline. -/
theorem applyOp_pubRgbw_fst (l : Light) (now : Int) :
    l.applyOp (.pubRgbw now) = l ∨
    l.applyOp (.pubRgbw now) = { l with next_publish := now + l.throttle_sec } := by
  simp only [Light.applyOp]
  unfold Light.publish_state_rgbw Light.get_state_rgbw
  split
  · exact .inl rfl
  · split
    · exact .inl rfl
    · split
      · exact .inl rfl
      · exact .inr rfl

/-- When `publish_state_switch` takes the publishing branch (state set,
deadline elapsed), it emits the switch state and advances the shared
deadline to `now + throttle_sec`. -/
theorem publish_state_switch_go (l : Light) (now : Int)
    (hset : ¬ l.state_switch = none) (h : ¬ l.next_publish > now) :
    l.publish_state_switch now =
      ({ l with next_publish := now + l.throttle_sec },
        some (.publish l.get_state_switch.topic l.get_state_switch.payload l.qos l.retain)) := by
  unfold Light.publish_state_switch
  rw [if_neg hset, if_neg h]

/-- When the shared deadline has not elapsed, `publish_state_switch`
performs no transport call and leaves the component unchanged. -/
theorem publish_state_switch_throttled (l : Light) (now : Int)
    (h : l.next_publish > now) :
    l.publish_state_switch now = (l, none) := by
  unfold Light.publish_state_switch
  split <;> rfl

/-- When the shared deadline has not elapsed, `publish_state_brightness`
performs no transport call and leaves the component unchanged. -/
theorem publish_state_brightness_throttled (l : Light) (now : Int)
    (h : l.next_publish > now) :
    l.publish_state_brightness now = (l, none) := by
  unfold Light.publish_state_brightness
  split <;> rfl

/-- Every single `Light` operation preserves the brightness invariant:
the setters validate before assigning, the publishers only move the shared
deadline. -/
theorem applyOp_brightnessOK (l : Light) (op : LightOp) (h : l.brightnessOK) :
    (l.applyOp op).brightnessOK := by
  cases op with
  | setSwitch s =>
    simp only [Light.applyOp]
    cases hr : l.set_state_switch s with
    | error e => simpa [hr] using h
    | ok l' =>
      rw [set_state_switch_ok l s l' hr]
      intro b hb
      exact h b hb
  | setBrightness n =>
    simp only [Light.applyOp]
    cases hr : l.set_state_brightness n with
    | error e => simpa [hr] using h
    | ok l' =>
      obtain ⟨hl', hlo, hhi⟩ := set_state_brightness_ok l n l' hr
      rw [hl']
      intro b hb
      have hb' : some n = some b := hb
      injection hb' with hnb
      subst hnb
      exact ⟨hlo, hhi⟩
  | setRgbw xs =>
    simp only [Light.applyOp]
    cases hr : l.set_state_rgbw xs with
    | error e => simpa [hr] using h
    | ok l' =>
      rw [set_state_rgbw_ok l xs l' hr]
      intro b hb
      exact h b hb
  | pubSwitch now =>
    rcases publish_state_switch_fst l now with hf | hf <;>
      · simp only [Light.applyOp, hf]
        intro b hb
        exact h b hb
  | pubRgbw now =>
    rcases applyOp_pubRgbw_fst l now with hf | hf <;>
      · rw [hf]
        intro b hb
        exact h b hb
  | pubBrightness now =>
    rcases publish_state_brightness_fst l now with hf | hf <;>
      · simp only [Light.applyOp, hf]
        intro b hb
        exact h b hb

/-- The brightness invariant holds after any sequence of `Light`
operations. -/
theorem applyOps_brightnessOK (l : Light) (ops : List LightOp) (h : l.brightnessOK) :
    (l.applyOps ops).brightnessOK := by
  induction ops generalizing l with
  | nil => simpa [Light.applyOps] using h
  | cons op rest ih =>
    rw [Light.applyOps, List.foldl_cons]
    exact ih (l.applyOp op) (applyOp_brightnessOK l op h)

/-- A successfully constructed `Light` satisfies the brightness invariant:
the constructor routes its default brightness through
`set_state_brightness`. -/
theorem init_brightnessOK (d nm u : String) (db : Int) (dr : List Int) (ds : String)
    (mn mx : Int) (q : Nat) (r : Bool) (th : Int) (l₀ : Light)
    (h : Light.init d nm u db dr ds mn mx q r th = .ok l₀) : l₀.brightnessOK := by
  simp only [Light.init] at h
  split at h
  · simp at h
  · rename_i l1 h1
    split at h
    · simp at h
    · rename_i l2 h2
      obtain ⟨hl2, hlo, hhi⟩ := set_state_brightness_ok l1 db l2 h2
      have hl0 := set_state_rgbw_ok l2 dr l₀ h
      subst hl0
      subst hl2
      have hl1 := set_state_switch_ok _ ds l1 h1
      subst hl1
      intro b hb
      have hb' : some db = some b := hb
      injection hb' with hnb
      subst hnb
      exact ⟨hlo, hhi⟩

/-- Setting the switch sub-state to the literal `'ON'` always succeeds. -/
theorem set_state_switch_on (l : Light) :
    l.set_state_switch "ON" = .ok { l with state_switch := some "ON" } := rfl

/-- `set_state_brightness` fails the bounds assertion with `AssertionError`. -/
theorem set_state_brightness_err (l : Light) (n : Int)
    (h : ¬ (l.min_brightness ≤ n ∧ n ≤ l.max_brightness)) :
    l.set_state_brightness n = .error .assertionError := by
  unfold Light.set_state_brightness Light.validate_state_brightness baseValidateState
  rw [if_neg h]

/-- The `Light` constructor propagates the brightness bounds assertion:
when the default brightness violates the configured bounds, `__init__`
raises. -/
theorem init_brightness_default_fail (d nm u : String) (db : Int) (dr : List Int)
    (mn mx : Int) (q : Nat) (r : Bool) (th : Int)
    (h : ¬ (mn ≤ db ∧ db ≤ mx)) :
    Light.init d nm u db dr "ON" mn mx q r th = .error .assertionError := by
  simp only [Light.init]
  split
  · rename_i e heq
    rw [set_state_switch_on] at heq
    simp at heq
  · rename_i l1 heq
    have hl1 := set_state_switch_ok _ "ON" l1 heq
    subst hl1
    split
    · rename_i e heq2
      rw [set_state_brightness_err _ db h] at heq2
      injection heq2 with heq2
      rw [heq2]
    · rename_i l2 heq2
      rw [set_state_brightness_err _ db h] at heq2
      simp at heq2

/-! ## Claims -/

/-- C8: On a `Light`, the blanket base operations `set_state`, `get_state`
and `publish_state` always fail with `NotImplementedError` for every input,
never mutating any sub-state and never performing any transport call
(the error result carries no updated component and no transport call), so
callers are forced through the sub-state-specific operations. -/
theorem C8_blanket_ops_disabled (l : Light) (s : StateValue) (now : Int) :
    l.set_state s = .error .notImplementedError ∧
    l.get_state = .error .notImplementedError ∧
    l.publish_state now = .error .notImplementedError :=
  ⟨rfl, rfl, rfl⟩

/-- C10: On a platform reporting no temperature sensors, constructing
`TemperaturesSensors` yields zero sensor components, and a subsequent
`publish` call performs zero transport calls (no publish, no subscribe). -/
theorem C10_no_probes_no_calls (d : String) (q : Nat) (r : Bool) (th now : Int) :
    (TemperaturesSensors.init d [] q r th).sensors = [] ∧
    (TemperaturesSensors.init d [] q r th).publish [] now =
      .ok (TemperaturesSensors.init d [] q r th, []) :=
  ⟨rfl, rfl⟩

/-- C5: For every integer list of wrong length (not exactly 4) or with any
element outside `[0, 255]`, `validate_state_rgbw`/`set_state_rgbw` fails
(with the bare assertion's `AssertionError`) and leaves the prior color
sub-state — indeed the whole component — unchanged. -/
theorem C5_rgbw_validation (l : Light) (xs : List Int)
    (h : xs.length ≠ 4 ∨ ∃ i ∈ xs, i < 0 ∨ 255 < i) :
    l.set_state_rgbw xs = .error .assertionError ∧
    l.applyOp (.setRgbw xs) = l := by
  have hv : l.validate_state_rgbw xs = .error .assertionError := by
    unfold Light.validate_state_rgbw
    rw [if_neg]
    rintro ⟨hlen, hall⟩
    rcases h with h | ⟨i, hi, hbad⟩
    · exact h hlen
    · rcases hall i hi with ⟨h0, h255⟩
      omega
  constructor
  · unfold Light.set_state_rgbw
    rw [hv]
  · simp only [Light.applyOp]
    unfold Light.set_state_rgbw
    rw [hv]
    rfl

theorem C5_witness :
    (([1, 2, 3] : List Int).length ≠ 4 ∨ ∃ i ∈ ([1, 2, 3] : List Int), i < 0 ∨ 255 < i) ∧
    lightA.set_state_rgbw [1, 2, 3] = .error .assertionError ∧
    lightA.applyOp (.setRgbw [1, 2, 3]) = lightA :=
  ⟨Or.inl (by decide),
    (C5_rgbw_validation lightA [1, 2, 3] (Or.inl (by decide))).1,
    (C5_rgbw_validation lightA [1, 2, 3] (Or.inl (by decide))).2⟩

/-- C9: There are `Light` constructor arguments, each individually
well-formed, for which construction itself raises: with
`max_brightness < 255` and the other arguments left at the source's
defaults (`default_brightness = 255`), `__init__` validates the default
brightness via `set_state_brightness` and the bounds assertion fails, so a
caller can never obtain such a `Light`. -/
theorem C9_init_narrowed_max_fails (d nm u : String) (mx : Int) (q : Nat) (r : Bool)
    (th : Int) (h : mx < 255) :
    Light.init d nm u 255 [255, 255, 255, 255] "ON" 0 mx q r th =
      .error .assertionError :=
  init_brightness_default_fail d nm u 255 [255, 255, 255, 255] 0 mx q r th (by omega)

theorem C9_witness :
    (100 : Int) < 255 ∧
    Light.init "dev1" "My Light" "light1" 255 [255, 255, 255, 255] "ON" 0 100 0 false 10 =
      .error .assertionError :=
  ⟨by decide, C9_init_narrowed_max_fails "dev1" "My Light" "light1" 100 0 false 10 (by decide)⟩

/-- C3: Calling `publish_state_switch` twice within the throttle interval
performs exactly one transport publish (the second call is silently skipped
with no I/O and leaves the component unchanged); calling it again after the
interval elapses performs a second transport publish and advances the
deadline to `now + throttle_sec`. -/
theorem C3_publish_throttle (l : Light) (t1 t2 t3 : Int)
    (hset : ¬ l.state_switch = none)
    (h1 : l.next_publish ≤ t1)
    (h2 : t2 < t1 + l.throttle_sec)
    (h3 : t1 + l.throttle_sec ≤ t3) :
    (l.publish_state_switch t1).2 ≠ none ∧
    ((l.publish_state_switch t1).1.publish_state_switch t2).2 = none ∧
    (((l.publish_state_switch t1).1.publish_state_switch t2).1.publish_state_switch t3).2 ≠ none ∧
    (((l.publish_state_switch t1).1.publish_state_switch t2).1.publish_state_switch t3).1.next_publish =
      t3 + l.throttle_sec := by
  have e1 := publish_state_switch_go l t1 hset (by omega)
  rw [e1]
  dsimp only []
  have e2 := publish_state_switch_throttled { l with next_publish := t1 + l.throttle_sec } t2
    ((by omega : t1 + l.throttle_sec > t2))
  rw [e2]
  dsimp only []
  have e3 := publish_state_switch_go { l with next_publish := t1 + l.throttle_sec } t3
    hset ((by omega : ¬ t1 + l.throttle_sec > t3))
  rw [e3]
  refine ⟨by simp, rfl, by simp, rfl⟩

theorem C3_witness :
    (lightA.publish_state_switch 0).2 ≠ none ∧
    ((lightA.publish_state_switch 0).1.publish_state_switch 1).2 = none ∧
    (((lightA.publish_state_switch 0).1.publish_state_switch 1).1.publish_state_switch 10).2 ≠ none ∧
    (((lightA.publish_state_switch 0).1.publish_state_switch 1).1.publish_state_switch 10).1.next_publish =
      10 + lightA.throttle_sec :=
  C3_publish_throttle lightA 0 1 10 (by decide) (by decide) (by decide) (by decide)

/-- C1 (counterexample): the Light sub-states are not independently
throttled. On the concrete `lightA` (`throttle_sec = 10`),
`publish_state_switch` at time 0 performs a transport publish, yet the
immediately following `publish_state_brightness` at time 1 — within the
throttle interval — performs none, contradicting the claim that a publish
of one sub-state does not consume the rate-limit deadline of another. -/
theorem C1_counterexample :
    (lightA.publish_state_switch 0).2 ≠ none ∧
    (1 : Int) < 0 + lightA.throttle_sec ∧
    ((lightA.publish_state_switch 0).1.publish_state_brightness 1).2 = none :=
  ⟨by decide, by decide, rfl⟩

/-- C1 (amended): the three Light sub-states share one rate-limit deadline
(`self._next_publish`): a sub-state publish that performs a transport
publish at time `t` advances the shared deadline to `t + throttle_sec`, so
an immediately following publish of a different sub-state within the
throttle interval is silently skipped with no transport publish and no
state change. -/
theorem C1_substates_share_throttle (l : Light) (t t' : Int)
    (h1 : (l.publish_state_switch t).2 ≠ none)
    (h2 : t' < t + l.throttle_sec) :
    (l.publish_state_switch t).1.publish_state_brightness t' =
      ((l.publish_state_switch t).1, none) := by
  by_cases hset : l.state_switch = none
  · exfalso
    apply h1
    unfold Light.publish_state_switch
    rw [if_pos hset]
  · by_cases ht : l.next_publish > t
    · exfalso
      apply h1
      rw [publish_state_switch_throttled l t ht]
    · rw [publish_state_switch_go l t hset ht]
      dsimp only []
      exact publish_state_brightness_throttled _ t' ((by omega : t + l.throttle_sec > t'))

theorem C1_witness :
    ((lightA.publish_state_switch 0).2 ≠ none ∧ (1 : Int) < 0 + lightA.throttle_sec) ∧
    (lightA.publish_state_switch 0).1.publish_state_brightness 1 =
      ((lightA.publish_state_switch 0).1, none) :=
  ⟨⟨by decide, by decide⟩, C1_substates_share_throttle lightA 0 1 (by decide) (by decide)⟩

/-- C2 (counterexample): on the concrete `lightA`
(`min_brightness = 0`, `max_brightness = 255`), `set_state_brightness 300`
fails with `AssertionError` — a bare `assert`, not the `InvalidStateValue`
domain-validation class the claim names. -/
theorem C2_counterexample :
    lightA.set_state_brightness 300 = .error .assertionError ∧
    PyError.assertionError ≠ PyError.invalidStateValue :=
  ⟨rfl, by decide⟩

/-- C2 (amended): for every integer outside
`[min_brightness, max_brightness]`, `set_state_brightness` fails with an
`AssertionError` (raised by the bare bounds assert, not the
`InvalidStateValue` class) synchronously before mutation, leaving the
component unchanged; consequently the brightness sub-state stays within
`[min_brightness, max_brightness]` after any sequence of operations on any
successfully constructed `Light`. -/
theorem C2_brightness_validation (l : Light) (n : Int)
    (h : n < l.min_brightness ∨ l.max_brightness < n) :
    l.set_state_brightness n = .error .assertionError ∧
    l.applyOp (.setBrightness n) = l ∧
    (l.brightnessOK → ∀ ops, (l.applyOps ops).brightnessOK) ∧
    (∀ (d nm u : String) (db : Int) (dr : List Int) (ds : String) (mn mx : Int)
        (q : Nat) (r : Bool) (th : Int) (l₀ : Light),
      Light.init d nm u db dr ds mn mx q r th = .ok l₀ → l₀.brightnessOK) := by
  have herr : l.set_state_brightness n = .error .assertionError :=
    set_state_brightness_err l n (by omega)
  refine ⟨herr, ?_, ?_, ?_⟩
  · simp only [Light.applyOp, herr]
    rfl
  · intro hOK ops
    exact applyOps_brightnessOK l ops hOK
  · intro d nm u db dr ds mn mx q r th l₀ h0
    exact init_brightnessOK d nm u db dr ds mn mx q r th l₀ h0

theorem C2_witness :
    ((300 : Int) < lightA.min_brightness ∨ lightA.max_brightness < 300) ∧
    lightA.set_state_brightness 300 = .error .assertionError ∧
    lightA.applyOp (.setBrightness 300) = lightA :=
  ⟨Or.inr (by decide),
    (C2_brightness_validation lightA 300 (Or.inr (by decide))).1,
    (C2_brightness_validation lightA 300 (Or.inr (by decide))).2.1⟩

/-- C4: for `Switch` and `BinarySensor`, `get_state` fails precisely when
the state is still the unset sentinel (on a fresh construction with
`NO_STATE` it fails with `AssertionError`), and succeeds immediately after
any valid `set_state`, returning the `{topic, payload}` pair with topic
`<topic_prefix>/state`. For `BinarySensor` the "precisely" direction is
stated over the states reachable through the documented operations (the
sentinel or a validated string). -/
theorem C4_get_state_unset :
    (∀ sw : Switch, (∃ e, sw.get_state = .error e) ↔ sw.state = .noState) ∧
    (∀ d nm u : String,
      (Switch.init d nm u .noState).get_state = .error .assertionError ∧
      (BinarySensor.init d nm u .noState).get_state = .error .assertionError) ∧
    (∀ (sw : Switch) (v : StateValue) (sw' : Switch), sw.set_state v = .ok sw' →
      sw'.get_state = .ok { topic := sw.topic_prefix ++ "/state", payload := v }) ∧
    (∀ (b : BinarySensor) (v : StateValue) (b' : BinarySensor), b.set_state v = .ok b' →
      b'.get_state = .ok { topic := b.topic_prefix ++ "/state", payload := v }) ∧
    (∀ b : BinarySensor, (b.state = .noState ∨ ∃ s, b.state = .str s) →
      ((∃ e, b.get_state = .error e) ↔ b.state = .noState)) := by
  refine ⟨?_, ?_, ?_, ?_, ?_⟩
  · intro sw
    constructor
    · rintro ⟨e, he⟩
      by_contra hne
      rw [Switch.get_state, if_neg hne] at he
      simp at he
    · intro hs
      exact ⟨.assertionError, by rw [Switch.get_state, if_pos hs]⟩
  · intro d nm u
    exact ⟨rfl, rfl⟩
  · intro sw v sw' h
    unfold Switch.set_state at h
    split at h
    · simp at h
    · rename_i hv
      injection h with h
      subst h
      have hne : ¬ v = .noState := by
        intro hveq
        rw [hveq] at hv
        unfold Switch.validate_state baseValidateState at hv
        simp at hv
      unfold Switch.get_state
      rw [if_neg hne]
  · intro b v b' h
    unfold BinarySensor.set_state at h
    split at h
    · simp at h
    · rename_i hv
      injection h with h
      subst h
      cases v with
      | noState =>
        unfold BinarySensor.validate_state baseValidateState at hv
        simp at hv
      | str s => rfl
      | int n =>
        unfold BinarySensor.validate_state baseValidateState at hv
        simp at hv
  · intro b hreach
    rcases hreach with hs | ⟨s, hs⟩
    · constructor
      · intro _
        exact hs
      · intro _
        refine ⟨.assertionError, ?_⟩
        unfold BinarySensor.get_state
        rw [hs]
    · constructor
      · rintro ⟨e, he⟩
        unfold BinarySensor.get_state at he
        rw [hs] at he
        simp at he
      · intro hns
        rw [hns] at hs
        simp at hs

theorem C4_witness :
    switchA.get_state = .error .assertionError ∧
    switchA.set_state (.str "ON") = .ok { switchA with state := .str "ON" } ∧
    Switch.get_state { switchA with state := .str "ON" } =
      .ok { topic := "homeassistant/switch/dev1/relay1/state", payload := .str "ON" } ∧
    bsensorA.get_state = .error .assertionError :=
  ⟨(C4_get_state_unset.2.1 "dev1" "My Relay" "relay1").1,
    rfl,
    C4_get_state_unset.2.2.1 switchA (.str "ON") { switchA with state := .str "ON" } rfl,
    (C4_get_state_unset.2.1 "dev1" "My Door" "door1").2⟩

/-- C6: for both valid two-literal inputs `'ON'` and `'OFF'`, `set_state`
followed by `get_state` returns the same literal as payload on `Switch` and
`BinarySensor`, and the boolean-view accessor `is_on` returns the correct
boolean (`True` for `'ON'`, `False` for `'OFF'`). -/
theorem C6_two_literal_roundtrip (sw : Switch) (b : BinarySensor) (lit : String)
    (h : lit = "ON" ∨ lit = "OFF") :
    (∃ sw', sw.set_state (.str lit) = .ok sw' ∧
      sw'.get_state = .ok { topic := sw.topic_prefix ++ "/state", payload := .str lit }) ∧
    (∃ b', b.set_state (.str lit) = .ok b' ∧
      b'.get_state = .ok { topic := b.topic_prefix ++ "/state", payload := .str lit } ∧
      b'.is_on = .ok (some (lit == "ON"))) := by
  rcases h with rfl | rfl
  · exact ⟨⟨{ sw with state := .str "ON" }, rfl, rfl⟩,
      ⟨{ b with state := .str "ON" }, rfl, rfl, rfl⟩⟩
  · exact ⟨⟨{ sw with state := .str "OFF" }, rfl, rfl⟩,
      ⟨{ b with state := .str "OFF" }, rfl, rfl, rfl⟩⟩

theorem C6_witness :
    ("ON" = "ON" ∨ "ON" = "OFF") ∧
    (∃ sw', switchA.set_state (.str "ON") = .ok sw' ∧
      sw'.get_state = .ok { topic := switchA.topic_prefix ++ "/state", payload := .str "ON" }) ∧
    (∃ b', bsensorA.set_state (.str "ON") = .ok b' ∧
      b'.get_state = .ok { topic := bsensorA.topic_prefix ++ "/state", payload := .str "ON" } ∧
      b'.is_on = .ok (some ("ON" == "ON"))) :=
  ⟨Or.inl rfl, C6_two_literal_roundtrip switchA bsensorA "ON" (Or.inl rfl)⟩

/-- C7: the `Text` command handler catches the validation failure for every
incoming payload violating the length domain rule and drops it without
raising and without invoking the user callback, whereas the `Switch`
command handler guards malformed payloads only by an assertion, so an
`AssertionError` escapes the handler on every invalid input. -/
theorem C7_command_decode_policy (t : Text) (sw : Switch) (p q : String)
    (hp : (p.length : Int) < t.min_length ∨ t.max_length < (p.length : Int))
    (hq : q ≠ "ON" ∧ q ≠ "OFF") :
    t.command_callback p = .ok none ∧
    sw.command_callback q = .error .assertionError := by
  constructor
  · have hv : t.validate_state (.str p) = .error .invalidStateValue := by
      unfold Text.validate_state baseValidateState
      by_cases h1 : (p.length : Int) < t.min_length
      · simp [h1]
      · have h2 : t.max_length < (p.length : Int) := by
          rcases hp with h | h
          · exact absurd h h1
          · exact h
        simp [h1, h2]
    unfold Text.command_callback
    rw [hv]
  · unfold Switch.command_callback
    rw [if_neg (by simp [switchStateKeys, Switch.ON, Switch.OFF, hq.1, hq.2])]

theorem C7_witness :
    ((("toolong".length : Int) < textA.min_length ∨
        textA.max_length < ("toolong".length : Int)) ∧
      ("HELLO" ≠ "ON" ∧ "HELLO" ≠ "OFF")) ∧
    textA.command_callback "toolong" = .ok none ∧
    switchA.command_callback "HELLO" = .error .assertionError :=
  ⟨⟨Or.inr (by decide), by decide, by decide⟩,
    C7_command_decode_policy textA switchA "toolong" "HELLO" (Or.inr (by decide))
      ⟨by decide, by decide⟩⟩
